import Mathlib

/-!
Formal model of the Behavior-scorecard repository.

The repository holds two presentation layers over a probability-of-default
(PD) model:

* `Powerbi_predict.py` — a scoring script for a BI tool: scorecard constants
  `SCORE_REF`, `PDO`, `ODDS` from which `A` and `B` are derived, the clamped
  log-odds transform `compute_score`, the 600/700 risk-category lambda, the
  model/scaler artifact loading, and `powerbi_predict` which augments the
  input table with `PD`, `Behavior_Score` and `Risk_Category` columns.
* `app.py` — a dashboard: hardcoded constants `A`, `B`, the unclamped
  transform `calculate_behavior_score`, the 580/700 `risk_category`
  labeler, and a render pass guarded by the presence of a `PD` column.

Probabilities and scores are modelled by real numbers, pandas data frames by
ordered lists of named columns, a raised exception or a halted render by
`Except.error`, and the external serialized classifier by an opaque function
parameter.
-/

/-- A cell of a data frame: the scored tables hold numeric cells (features,
PD, scores) and string cells (identifiers, risk labels). -/
inductive CellVal where
  | num : ℝ → CellVal
  | str : String → CellVal

/-- Numeric view of a cell. The scoring paths only ever read numeric cells;
a string cell has no numeric value and reads as zero. -/
def CellVal.toReal : CellVal → ℝ
  | .num x => x
  | .str _ => 0

/-- A data frame: named columns in insertion order, as pandas keeps them. -/
structure Frame where
  cols : List (String × List CellVal)

/-- Column names of a frame, in order (`df.columns`). -/
def Frame.colNames (f : Frame) : List String :=
  f.cols.map Prod.fst

/-- Look a column up by name (`df[n]` on the reading side). -/
def Frame.getCol (f : Frame) (n : String) : Option (List CellVal) :=
  (f.cols.find? (fun c => c.1 == n)).map Prod.snd

/-- Column lookup with the empty column as the default. -/
def Frame.getColD (f : Frame) (n : String) : List CellVal :=
  (f.getCol n).getD []

/-- Column assignment `df[n] = v`: pandas replaces an existing column named
`n` in place and otherwise appends a new column at the end. -/
def Frame.setCol (f : Frame) (n : String) (v : List CellVal) : Frame :=
  if f.colNames.contains n then
    ⟨f.cols.map (fun c => if c.1 == n then (n, v) else c)⟩
  else
    ⟨f.cols ++ [(n, v)]⟩

namespace Powerbi

/-- Model artifact filename (`MODEL_FILE = "behavior_model.pkl"`). -/
def MODEL_FILE : String := "behavior_model.pkl"

/-- Optional scaler artifact filename (`SCALER_FILE = "scaler.pkl"`). -/
def SCALER_FILE : String := "scaler.pkl"

/-- Module-level artifact loading of `powerbi_predict.py`: load the model if
its file exists and otherwise raise `FileNotFoundError` (the `.error` case),
then load the scaler only if its file exists (no exception either way). The
result records which of the two artifacts were loaded. -/
def loadArtifacts (fileExists : String → Bool) : Except String (Bool × Bool) :=
  if fileExists MODEL_FILE then
    .ok (true, fileExists SCALER_FILE)
  else
    .error ("Model file not found: " ++ MODEL_FILE)

/-- Scorecard constant `SCORE_REF = 600`. -/
def SCORE_REF : ℝ := 600

/-- Scorecard constant `PDO = 20` (points to double the odds). -/
def PDO : ℝ := 20

/-- Scorecard constant `ODDS = 20` (reference odds). -/
def ODDS : ℝ := 20

/-- Derived constant `B = PDO / math.log(2)`. -/
noncomputable def B : ℝ := PDO / Real.log 2

/-- Derived constant `A = SCORE_REF + B * math.log(ODDS)`. -/
noncomputable def A : ℝ := SCORE_REF + B * Real.log ODDS

/-- The clamp `pd = max(0.001, min(0.999, pd))` at the top of
`compute_score`. -/
def clampPD (p : ℝ) : ℝ := max 0.001 (min 0.999 p)

/-- The transform `compute_score(pd)`: clamp, form `odds = pd / (1 - pd)`,
return `A - B * math.log(odds)`. -/
noncomputable def compute_score (p : ℝ) : ℝ :=
  A - B * Real.log (clampPD p / (1 - clampPD p))

/-- The risk-category lambda applied to the `Behavior_Score` column:
`"Low" if s >= 700 else ("Medium" if s >= 600 else "High")`. -/
noncomputable def Risk_Category (s : ℝ) : String :=
  if 700 ≤ s then "Low" else if 600 ≤ s then "Medium" else "High"

/-- The scoring entry point `powerbi_predict(dataset)`. The external model
(together with the optional scaler applied to `X.values`) is abstracted as
`predictProba`, the map `dataset ↦ _model.predict_proba(X_values)[:, 1]`.
The input frame is only read; the three outputs are assigned on a copy. -/
noncomputable def powerbi_predict (predictProba : Frame → List ℝ)
    (dataset : Frame) : Frame :=
  let pd_probs := predictProba dataset
  let out1 := dataset.setCol "PD" (pd_probs.map CellVal.num)
  let out2 := out1.setCol "Behavior_Score"
    (pd_probs.map (fun p => CellVal.num (compute_score p)))
  out2.setCol "Risk_Category"
    ((out2.getColD "Behavior_Score").map
      (fun c => CellVal.str (Risk_Category c.toReal)))

end Powerbi

namespace App

/-- Hardcoded dashboard constant `A = 686.4385618977473`. -/
def A : ℝ := 686.4385618977473

/-- Hardcoded dashboard constant `B = 28.85390081777927`. -/
def B : ℝ := 28.85390081777927

/-- The dashboard transform `calculate_behavior_score(pd_value)`: it forms
the odds from the raw input with no clamping. -/
noncomputable def calculate_behavior_score (pd_value : ℝ) : ℝ :=
  A - B * Real.log (pd_value / (1 - pd_value))

/-- The dashboard labeler `risk_category(score)` with thresholds 580/700. -/
noncomputable def risk_category (score : ℝ) : String :=
  if score < 580 then "High Risk"
  else if score < 700 then "Medium Risk"
  else "Low Risk"

/-- The dashboard's main render pass on an uploaded CSV: if the frame has no
`PD` column, report an error and stop before computing anything (the
`.error` case models `st.error` followed by `st.stop`); otherwise add the
`Behavior_Score` column (`df["PD"].apply(calculate_behavior_score)`) and the
`Risk_Category` column (`df["Behavior_Score"].apply(risk_category)`). -/
noncomputable def renderUpload (df : Frame) : Except String Frame :=
  if df.colNames.contains "PD" then
    let scored := df.setCol "Behavior_Score"
      ((df.getColD "PD").map
        (fun c => CellVal.num (calculate_behavior_score c.toReal)))
    .ok (scored.setCol "Risk_Category"
      ((scored.getColD "Behavior_Score").map
        (fun c => CellVal.str (risk_category c.toReal))))
  else
    .error "CSV must contain a 'PD' column!"

end App

/-!
Helper lemmas about the transform, the clamp and the frame operations.
-/

lemma log_two_pos : 0 < Real.log 2 := Real.log_pos (by norm_num)

lemma Powerbi.B_eq : Powerbi.B = 20 / Real.log 2 := rfl

lemma Powerbi.B_pos : 0 < Powerbi.B := by
  rw [Powerbi.B_eq]
  exact div_pos (by norm_num) log_two_pos

lemma App.B_lit_pos : 0 < App.B := by unfold App.B; norm_num

lemma odds_pos {p : ℝ} (h0 : 0 < p) (h1 : p < 1) : 0 < p / (1 - p) :=
  div_pos h0 (by linarith)

lemma odds_lt_odds {p q : ℝ} (h0 : 0 < p) (hpq : p < q) (h1 : q < 1) :
    p / (1 - p) < q / (1 - q) := by
  rw [div_lt_div_iff (by linarith) (by linarith)]
  nlinarith

lemma odds_le_odds {p q : ℝ} (h0 : 0 < p) (hpq : p ≤ q) (h1 : q < 1) :
    p / (1 - p) ≤ q / (1 - q) := by
  rw [div_le_div_iff (by linarith) (by linarith)]
  nlinarith

lemma score_strict_anti {a b p q : ℝ} (hb : 0 < b) (h0 : 0 < p) (hpq : p < q)
    (h1 : q < 1) :
    a - b * Real.log (q / (1 - q)) < a - b * Real.log (p / (1 - p)) := by
  have hlog := Real.log_lt_log (odds_pos h0 (hpq.trans h1)) (odds_lt_odds h0 hpq h1)
  nlinarith

lemma clampPD_lb (p : ℝ) : 0.001 ≤ Powerbi.clampPD p := le_max_left _ _

lemma clampPD_ub (p : ℝ) : Powerbi.clampPD p ≤ 0.999 :=
  max_le (by norm_num) (min_le_left _ _)

lemma clampPD_eq_self {p : ℝ} (h1 : 0.001 ≤ p) (h2 : p ≤ 0.999) :
    Powerbi.clampPD p = p := by
  unfold Powerbi.clampPD
  rw [min_eq_right h2, max_eq_right h1]

lemma clampPD_mono {p q : ℝ} (h : p ≤ q) :
    Powerbi.clampPD p ≤ Powerbi.clampPD q :=
  max_le_max le_rfl (min_le_min le_rfl h)

lemma odds_bounds {q : ℝ} (h1 : 0.001 ≤ q) (h2 : q ≤ 0.999) :
    (1 / 999 : ℝ) ≤ q / (1 - q) ∧ q / (1 - q) ≤ 999 := by
  have hq : (0 : ℝ) < 1 - q := by linarith
  constructor
  · rw [le_div_iff hq]; linarith
  · rw [div_le_iff hq]; linarith

/-- C4: each of the two risk-categorization functions assigns every real
score exactly one of three labels, splitting the score line into three
contiguous, non-overlapping buckets: the BI script at 600 and 700 with
labels High, Medium, Low, and the dashboard at 580 and 700 with labels
High Risk, Medium Risk, Low Risk. -/
theorem C4_risk_buckets_partition (s : ℝ) :
    (Powerbi.Risk_Category s = "Low" ↔ 700 ≤ s) ∧
    (Powerbi.Risk_Category s = "Medium" ↔ 600 ≤ s ∧ s < 700) ∧
    (Powerbi.Risk_Category s = "High" ↔ s < 600) ∧
    (App.risk_category s = "High Risk" ↔ s < 580) ∧
    (App.risk_category s = "Medium Risk" ↔ 580 ≤ s ∧ s < 700) ∧
    (App.risk_category s = "Low Risk" ↔ 700 ≤ s) := by
  unfold Powerbi.Risk_Category App.risk_category
  split_ifs <;>
    refine ⟨?_, ?_, ?_, ?_, ?_, ?_⟩ <;>
      constructor <;>
        intro h <;>
          first
            | rfl
            | exact absurd h (by decide)
            | exact ⟨by linarith, by linarith⟩
            | (obtain ⟨ha, hb⟩ := h; exfalso; linarith)
            | (exfalso; linarith)
            | linarith

/-- C7: the BI script's startup raises a fatal error exactly when the model
file is missing, and the error is raised before any scoring result is
produced; a missing scaler file alone does not raise. -/
theorem C7_model_file_guard (fileExists : String → Bool) :
    ((Powerbi.loadArtifacts fileExists).isOk = true ↔
      fileExists Powerbi.MODEL_FILE = true) ∧
    (fileExists Powerbi.MODEL_FILE = false →
      Powerbi.loadArtifacts fileExists =
        .error ("Model file not found: " ++ Powerbi.MODEL_FILE)) ∧
    (fileExists Powerbi.MODEL_FILE = true →
      fileExists Powerbi.SCALER_FILE = false →
      Powerbi.loadArtifacts fileExists = .ok (true, false)) := by
  unfold Powerbi.loadArtifacts
  cases h : fileExists Powerbi.MODEL_FILE
  · refine ⟨by simp [h, Except.isOk, Except.toBool], by simp [h], by simp [h]⟩
  · refine ⟨by simp [h, Except.isOk, Except.toBool], by simp [h], fun _ hs => by simp [h, hs]⟩

/-- C10: the two risk labelers are different functions: their label sets are
disjoint (no BI label ever equals a dashboard label), and on every score in
the band from 580 inclusive to 600 exclusive the BI script returns its worst
tier High while the dashboard returns its middle tier Medium Risk. -/
theorem C10_labelers_not_equal :
    (∀ s t : ℝ, Powerbi.Risk_Category s ≠ App.risk_category t) ∧
    (∀ s : ℝ, 580 ≤ s → s < 600 →
      Powerbi.Risk_Category s = "High" ∧ App.risk_category s = "Medium Risk") := by
  constructor
  · intro s t
    unfold Powerbi.Risk_Category App.risk_category
    split_ifs <;> decide
  · intro s h1 h2
    unfold Powerbi.Risk_Category App.risk_category
    rw [if_neg (by linarith : ¬ (700 : ℝ) ≤ s),
      if_neg (by linarith : ¬ (600 : ℝ) ≤ s),
      if_neg (not_lt.mpr h1), if_pos (by linarith : s < 700)]
    exact ⟨rfl, rfl⟩

/-- C1 counterexample: two distinct probabilities in (0,1) that both fall
below the clamp floor 0.001 receive the same score from the BI script's
`compute_score`, so the transform is not strictly decreasing on all of
(0,1) as claimed. -/
theorem C1_clamp_defeats_strictness :
    (0 : ℝ) < 0.0001 ∧ (0.0001 : ℝ) < 0.0005 ∧ (0.0005 : ℝ) < 1 ∧
    ¬ Powerbi.compute_score 0.0005 < Powerbi.compute_score 0.0001 := by
  refine ⟨by norm_num, by norm_num, by norm_num, ?_⟩
  have h1 : Powerbi.clampPD 0.0001 = 0.001 := by
    unfold Powerbi.clampPD
    rw [min_eq_right (by norm_num), max_eq_left (by norm_num)]
  have h2 : Powerbi.clampPD 0.0005 = 0.001 := by
    unfold Powerbi.clampPD
    rw [min_eq_right (by norm_num), max_eq_left (by norm_num)]
  unfold Powerbi.compute_score
  rw [h1, h2]
  exact lt_irrefl _

/-- C1 (amended): on (0,1) the dashboard transform is strictly decreasing,
and the BI transform is weakly decreasing; the BI transform is strictly
decreasing as soon as the pair stays inside the clamp interval
[0.001, 0.999]. -/
theorem C1_score_transform_decreasing (p q : ℝ) (h0 : 0 < p) (hpq : p < q)
    (h1 : q < 1) :
    App.calculate_behavior_score q < App.calculate_behavior_score p ∧
    Powerbi.compute_score q ≤ Powerbi.compute_score p ∧
    (0.001 ≤ p → q ≤ 0.999 →
      Powerbi.compute_score q < Powerbi.compute_score p) := by
  refine ⟨?_, ?_, ?_⟩
  · unfold App.calculate_behavior_score
    exact score_strict_anti App.B_lit_pos h0 hpq h1
  · unfold Powerbi.compute_score
    have hp1 : (0 : ℝ) < Powerbi.clampPD p := lt_of_lt_of_le (by norm_num) (clampPD_lb p)
    have hq1 : Powerbi.clampPD q < 1 := lt_of_le_of_lt (clampPD_ub q) (by norm_num)
    have hpq' : Powerbi.clampPD p ≤ Powerbi.clampPD q := clampPD_mono hpq.le
    have hop : 0 < Powerbi.clampPD p / (1 - Powerbi.clampPD p) :=
      odds_pos hp1 (lt_of_le_of_lt hpq' hq1)
    have hodds := odds_le_odds hp1 hpq' hq1
    have hlog := Real.log_le_log hop hodds
    nlinarith [Powerbi.B_pos]
  · intro hp hq
    unfold Powerbi.compute_score
    rw [clampPD_eq_self hp (le_trans hpq.le hq),
      clampPD_eq_self (le_trans hp hpq.le) hq]
    exact score_strict_anti Powerbi.B_pos h0 hpq h1

/-- C1 witness: the amended monotonicity claim evaluated on the concrete
pair 0.25 < 0.5. -/
theorem C1_score_transform_decreasing_witness :
    (0 : ℝ) < 0.25 ∧ (0.25 : ℝ) < 0.5 ∧ (0.5 : ℝ) < 1 ∧
    (App.calculate_behavior_score 0.5 < App.calculate_behavior_score 0.25 ∧
      Powerbi.compute_score 0.5 ≤ Powerbi.compute_score 0.25 ∧
      ((0.001 : ℝ) ≤ 0.25 → (0.5 : ℝ) ≤ 0.999 →
        Powerbi.compute_score 0.5 < Powerbi.compute_score 0.25)) :=
  ⟨by norm_num, by norm_num, by norm_num,
    C1_score_transform_decreasing 0.25 0.5 (by norm_num) (by norm_num) (by norm_num)⟩

/-- C3 counterexample: the dashboard transform applies no clamp. At input
PD = 0 its odds argument is 0 (so the logarithm is evaluated at 0), and its
value differs from what the clamped-to-[0.001, 0.999] transform the claim
describes would return at 0. -/
theorem C3_dashboard_has_no_clamp :
    (0 : ℝ) / (1 - 0) = 0 ∧
    App.calculate_behavior_score 0 = App.A - App.B * Real.log 0 ∧
    App.calculate_behavior_score 0 ≠
      App.A - App.B *
        Real.log (Powerbi.clampPD 0 / (1 - Powerbi.clampPD 0)) := by
  have hc : Powerbi.clampPD 0 = 0.001 := by
    unfold Powerbi.clampPD
    rw [min_eq_right (by norm_num), max_eq_left (by norm_num)]
  have h0 : App.calculate_behavior_score 0 = App.A := by
    unfold App.calculate_behavior_score
    norm_num
  refine ⟨by norm_num, ?_, ?_⟩
  · rw [h0]
    norm_num [Real.log_zero]
  · rw [h0, hc]
    have hlt : Real.log ((0.001 : ℝ) / (1 - 0.001)) < 0 :=
      Real.log_neg (by norm_num) (by norm_num)
    have hprod : App.B * Real.log ((0.001 : ℝ) / (1 - 0.001)) < 0 :=
      mul_neg_of_pos_of_neg App.B_lit_pos hlt
    intro h
    linarith

/-- C3 (amended): the BI script's `compute_score` clamps its input to
[0.001, 0.999], so the odds it passes to the logarithm always lie in
[1/999, 999] — strictly positive, with a nonzero denominator — for every
real input; the dashboard's `calculate_behavior_score` applies no clamp and
at PD = 0 evaluates the logarithm at odds 0. -/
theorem C3_clamp_keeps_log_odds_finite (p : ℝ) :
    0.001 ≤ Powerbi.clampPD p ∧ Powerbi.clampPD p ≤ 0.999 ∧
    (1 / 999 : ℝ) ≤ Powerbi.clampPD p / (1 - Powerbi.clampPD p) ∧
    Powerbi.clampPD p / (1 - Powerbi.clampPD p) ≤ 999 ∧
    0 < Powerbi.clampPD p / (1 - Powerbi.clampPD p) ∧
    1 - Powerbi.clampPD p ≠ 0 ∧
    App.calculate_behavior_score 0 = App.A - App.B * Real.log 0 := by
  have hlb := clampPD_lb p
  have hub := clampPD_ub p
  have hb := odds_bounds hlb hub
  refine ⟨hlb, hub, hb.1, hb.2, lt_of_lt_of_le (by norm_num) hb.1, ?_, ?_⟩
  · intro h
    have : Powerbi.clampPD p = 1 := by linarith
    linarith [hub, this]
  · unfold App.calculate_behavior_score
    norm_num

lemma pow_lt_left : (2 : ℕ) ^ 8643 < 20 ^ 2000 := by norm_num

lemma pow_lt_right : (20 : ℕ) ^ 2000 < 2 ^ 8645 := by norm_num

lemma log_ratio_bounds :
    (8643 / 2000 : ℝ) < Real.log 20 / Real.log 2 ∧
    Real.log 20 / Real.log 2 < (8645 / 2000 : ℝ) := by
  have hL2 : (0 : ℝ) < Real.log 2 := log_two_pos
  have h1 : ((2 : ℝ)) ^ (8643 : ℕ) < (20 : ℝ) ^ (2000 : ℕ) := by
    exact_mod_cast pow_lt_left
  have h2 : ((20 : ℝ)) ^ (2000 : ℕ) < (2 : ℝ) ^ (8645 : ℕ) := by
    exact_mod_cast pow_lt_right
  have hl1 := Real.log_lt_log (by positivity) h1
  have hl2 := Real.log_lt_log (by positivity) h2
  rw [Real.log_pow, Real.log_pow] at hl1
  rw [Real.log_pow, Real.log_pow] at hl2
  push_cast at hl1 hl2
  constructor
  · rw [div_lt_div_iff (by norm_num) hL2]
    linarith
  · rw [div_lt_div_iff hL2 (by norm_num)]
    linarith

lemma Powerbi.A_bounds : 686.43 < Powerbi.A ∧ Powerbi.A < 686.45 := by
  have h := log_ratio_bounds
  unfold Powerbi.A Powerbi.B Powerbi.SCORE_REF Powerbi.PDO Powerbi.ODDS
  have heq : (600 : ℝ) + 20 / Real.log 2 * Real.log 20 =
      600 + 20 * (Real.log 20 / Real.log 2) := by ring
  rw [heq]
  constructor <;> nlinarith [h.1, h.2]

/-- C5: on input PD = 0.5 the BI script's transform returns exactly the
constant A (the odds are 1 and the logarithm vanishes), A lies strictly
between 686.43 and 686.45 (so it is approximately 686.44), and the
resulting 600/700 risk category is the middle label Medium. -/
theorem C5_half_pd_scores_A :
    Powerbi.compute_score 0.5 = Powerbi.A ∧
    686.43 < Powerbi.compute_score 0.5 ∧
    Powerbi.compute_score 0.5 < 686.45 ∧
    Powerbi.Risk_Category (Powerbi.compute_score 0.5) = "Medium" := by
  have hc : Powerbi.clampPD 0.5 = 0.5 := clampPD_eq_self (by norm_num) (by norm_num)
  have h1 : Powerbi.compute_score 0.5 = Powerbi.A := by
    unfold Powerbi.compute_score
    rw [hc]
    norm_num
  have hA := Powerbi.A_bounds
  refine ⟨h1, by rw [h1]; exact hA.1, by rw [h1]; exact hA.2, ?_⟩
  rw [h1]
  unfold Powerbi.Risk_Category
  rw [if_neg (by linarith [hA.2] : ¬ (700 : ℝ) ≤ Powerbi.A),
    if_pos (by linarith [hA.1] : (600 : ℝ) ≤ Powerbi.A)]

/-- C6 counterexample: the dashboard's unclamped transform leaves the
nominal 300–900 band: at PD = 0.999999 (inside (0,1)) its score is below
300. -/
theorem C6_dashboard_score_below_300 :
    (0 : ℝ) < 0.999999 ∧ (0.999999 : ℝ) < 1 ∧
    App.calculate_behavior_score 0.999999 < 300 := by
  refine ⟨by norm_num, by norm_num, ?_⟩
  have hodds : (0.999999 : ℝ) / (1 - 0.999999) = 999999 := by norm_num
  unfold App.calculate_behavior_score App.A App.B
  rw [hodds]
  have hp : ((2 : ℝ)) ^ (97 : ℕ) < (999999 : ℝ) ^ (5 : ℕ) := by
    exact_mod_cast (by norm_num : (2 : ℕ) ^ 97 < 999999 ^ 5)
  have hl := Real.log_lt_log (by positivity) hp
  rw [Real.log_pow, Real.log_pow] at hl
  push_cast at hl
  have hL2 := Real.log_two_gt_d9
  linarith

/-- C6 (amended): the BI script's clamped transform maps every real input
into the nominal band [300, 900] (indeed into roughly [486, 887]); the
dashboard's unclamped transform does not, escaping the band for PD close
enough to 0 or 1. -/
theorem C6_bi_score_in_band (p : ℝ) :
    300 ≤ Powerbi.compute_score p ∧ Powerbi.compute_score p ≤ 900 := by
  have hlb := clampPD_lb p
  have hub := clampPD_ub p
  have hb := odds_bounds hlb hub
  have hopos : (0 : ℝ) < Powerbi.clampPD p / (1 - Powerbi.clampPD p) :=
    lt_of_lt_of_le (by norm_num) hb.1
  have hlog_ub : Real.log (Powerbi.clampPD p / (1 - Powerbi.clampPD p)) ≤
      Real.log 999 := Real.log_le_log hopos hb.2
  have hlog_lb : Real.log ((1 : ℝ) / 999) ≤
      Real.log (Powerbi.clampPD p / (1 - Powerbi.clampPD p)) :=
    Real.log_le_log (by norm_num) hb.1
  have hinv : Real.log ((1 : ℝ) / 999) = - Real.log 999 := by
    rw [one_div, Real.log_inv]
  have h999 : Real.log (999 : ℝ) ≤ 10 * Real.log 2 := by
    have h : ((999 : ℝ)) ≤ (2 : ℝ) ^ (10 : ℕ) := by norm_num
    have hle := Real.log_le_log (by norm_num) h
    rw [Real.log_pow] at hle
    push_cast at hle
    linarith
  have hL2 : (0 : ℝ) < Real.log 2 := log_two_pos
  have hB200 : Powerbi.B * (10 * Real.log 2) = 200 := by
    rw [Powerbi.B_eq]
    field_simp
    ring
  have hscale_ub : Powerbi.B * Real.log (Powerbi.clampPD p / (1 - Powerbi.clampPD p)) ≤
      Powerbi.B * (10 * Real.log 2) :=
    mul_le_mul_of_nonneg_left (le_trans hlog_ub h999) Powerbi.B_pos.le
  have hscale_lb : Powerbi.B * (-(10 * Real.log 2)) ≤
      Powerbi.B * Real.log (Powerbi.clampPD p / (1 - Powerbi.clampPD p)) :=
    mul_le_mul_of_nonneg_left (by linarith) Powerbi.B_pos.le
  have hneg : Powerbi.B * (-(10 * Real.log 2)) = -(Powerbi.B * (10 * Real.log 2)) := by
    ring
  have hA := Powerbi.A_bounds
  unfold Powerbi.compute_score
  constructor <;> nlinarith [hA.1, hA.2, hscale_ub, hscale_lb, hB200, hneg]

lemma Frame.colNames_setCol (f : Frame) (n : String) (v : List CellVal) :
    (f.setCol n v).colNames =
      if f.colNames.contains n then f.colNames else f.colNames ++ [n] := by
  unfold Frame.setCol Frame.colNames
  split_ifs with h
  · simp only [List.map_map]
    refine List.map_eq_map_iff.mpr (fun c _ => ?_)
    simp only [Function.comp_apply]
    split_ifs with hc
    · exact (eq_of_beq hc).symm
    · rfl
  · simp

lemma Frame.setCol_contains_self (f : Frame) (n : String) (v : List CellVal) :
    ((f.setCol n v).colNames).contains n = true := by
  rw [Frame.colNames_setCol]
  split_ifs with h
  · exact h
  · simp

lemma contains_append_left {l l' : List String} {a : String}
    (h : l.contains a = true) : (l ++ l').contains a = true := by
  simp_all

lemma Frame.setCol_cols_of_not_contains {f : Frame} {n : String}
    (v : List CellVal) (h : f.colNames.contains n = false) :
    (f.setCol n v).cols = f.cols ++ [(n, v)] := by
  unfold Frame.setCol
  rw [if_neg (by simp_all)]

lemma find_none_of_not_contains {cols : List (String × List CellVal)}
    {n : String} (h : (cols.map Prod.fst).contains n = false) :
    cols.find? (fun c => c.1 == n) = none := by
  rw [List.find?_eq_none]
  intro c hc hn
  have : n ∈ cols.map Prod.fst := List.mem_map.mpr ⟨c, hc, eq_of_beq hn⟩
  simp_all

lemma find_isSome_of_contains {cols : List (String × List CellVal)}
    {n : String} (h : (cols.map Prod.fst).contains n = true) :
    (cols.find? (fun c => c.1 == n)).isSome = true := by
  have : n ∈ cols.map Prod.fst := by simpa using h
  obtain ⟨c, hc, hcn⟩ := List.mem_map.mp this
  exact List.find?_isSome.mpr ⟨c, hc, by simp [hcn]⟩

/-- C8: the dashboard render halts with the missing-column error, before
computing any score or category, exactly when the uploaded frame has no PD
column; when the PD column is present it produces a scored frame carrying
the Behavior_Score and Risk_Category columns. -/
theorem C8_pd_column_guard (df : Frame) :
    (df.colNames.contains "PD" = false →
      App.renderUpload df = .error "CSV must contain a 'PD' column!") ∧
    (df.colNames.contains "PD" = true →
      ∃ out : Frame, App.renderUpload df = .ok out ∧
        (out.colNames.contains "Behavior_Score") = true ∧
        (out.colNames.contains "Risk_Category") = true) := by
  constructor
  · intro h
    unfold App.renderUpload
    rw [if_neg (by simp_all)]
  · intro h
    unfold App.renderUpload
    rw [if_pos h]
    refine ⟨_, rfl, ?_, Frame.setCol_contains_self _ _ _⟩
    rw [Frame.colNames_setCol]
    split_ifs with h2
    · exact Frame.setCol_contains_self _ _ _
    · exact contains_append_left (Frame.setCol_contains_self _ _ _)

/-- C9 (amended): for an input table whose column names avoid PD,
Behavior_Score and Risk_Category (as a feature table fed to the model
does), `powerbi_predict` returns the input columns unchanged followed by
exactly those three new columns, and every original column reads back
unchanged; the input frame itself is never written (the embedding is a pure
function of it, mirroring `dataset.copy()`). When the input already carries
one of the three names, pandas column assignment overwrites it in place
instead of appending. -/
theorem C9_predict_appends_three_columns (predictProba : Frame → List ℝ)
    (dataset : Frame)
    (hPD : dataset.colNames.contains "PD" = false)
    (hBS : dataset.colNames.contains "Behavior_Score" = false)
    (hRC : dataset.colNames.contains "Risk_Category" = false) :
    (Powerbi.powerbi_predict predictProba dataset).cols =
      dataset.cols ++
        [("PD", (predictProba dataset).map CellVal.num),
          ("Behavior_Score",
            (predictProba dataset).map
              (fun p => CellVal.num (Powerbi.compute_score p))),
          ("Risk_Category",
            (predictProba dataset).map
              (fun p =>
                CellVal.str (Powerbi.Risk_Category (Powerbi.compute_score p))))] ∧
    (∀ n : String, dataset.colNames.contains n = true →
      (Powerbi.powerbi_predict predictProba dataset).getCol n =
        dataset.getCol n) := by
  have h1 : (dataset.setCol "PD" ((predictProba dataset).map CellVal.num)).cols =
      dataset.cols ++ [("PD", (predictProba dataset).map CellVal.num)] :=
    Frame.setCol_cols_of_not_contains _ hPD
  have hn1 : (dataset.setCol "PD" ((predictProba dataset).map CellVal.num)).colNames =
      dataset.colNames ++ ["PD"] := by
    unfold Frame.colNames at *
    rw [h1]
    simp
  have hBS1 : ((dataset.setCol "PD"
      ((predictProba dataset).map CellVal.num)).colNames).contains
        "Behavior_Score" = false := by
    rw [hn1]
    simp_all
  have h2 : ((dataset.setCol "PD" ((predictProba dataset).map CellVal.num)).setCol
      "Behavior_Score"
      ((predictProba dataset).map
        (fun p => CellVal.num (Powerbi.compute_score p)))).cols =
      (dataset.setCol "PD" ((predictProba dataset).map CellVal.num)).cols ++
        [("Behavior_Score",
          (predictProba dataset).map
            (fun p => CellVal.num (Powerbi.compute_score p)))] :=
    Frame.setCol_cols_of_not_contains _ hBS1
  have hn2 : ((dataset.setCol "PD" ((predictProba dataset).map CellVal.num)).setCol
      "Behavior_Score"
      ((predictProba dataset).map
        (fun p => CellVal.num (Powerbi.compute_score p)))).colNames =
      dataset.colNames ++ ["PD", "Behavior_Score"] := by
    unfold Frame.colNames at *
    rw [h2, h1]
    simp
  have hRC2 : (((dataset.setCol "PD" ((predictProba dataset).map CellVal.num)).setCol
      "Behavior_Score"
      ((predictProba dataset).map
        (fun p => CellVal.num (Powerbi.compute_score p)))).colNames).contains
        "Risk_Category" = false := by
    rw [hn2]
    simp_all
  have hBSn : (dataset.cols.map Prod.fst).contains "Behavior_Score" = false := hBS
  have hfind : (((dataset.setCol "PD" ((predictProba dataset).map CellVal.num)).setCol
      "Behavior_Score"
      ((predictProba dataset).map
        (fun p => CellVal.num (Powerbi.compute_score p)))).cols).find?
        (fun c => c.1 == "Behavior_Score") =
      some ("Behavior_Score",
        (predictProba dataset).map
          (fun p => CellVal.num (Powerbi.compute_score p))) := by
    rw [h2, h1, List.find?_append, List.find?_append,
      find_none_of_not_contains hBSn]
    simp
  have hgetD : ((dataset.setCol "PD" ((predictProba dataset).map CellVal.num)).setCol
      "Behavior_Score"
      ((predictProba dataset).map
        (fun p => CellVal.num (Powerbi.compute_score p)))).getColD
        "Behavior_Score" =
      (predictProba dataset).map (fun p => CellVal.num (Powerbi.compute_score p)) := by
    unfold Frame.getColD Frame.getCol
    rw [hfind]
    rfl
  have hcomp : (((predictProba dataset).map
      (fun p => CellVal.num (Powerbi.compute_score p))).map
        (fun c => CellVal.str (Powerbi.Risk_Category c.toReal))) =
      (predictProba dataset).map
        (fun p => CellVal.str (Powerbi.Risk_Category (Powerbi.compute_score p))) := by
    rw [List.map_map]
    exact List.map_eq_map_iff.mpr (fun a _ => rfl)
  have hcols : (Powerbi.powerbi_predict predictProba dataset).cols =
      dataset.cols ++
        [("PD", (predictProba dataset).map CellVal.num),
          ("Behavior_Score",
            (predictProba dataset).map
              (fun p => CellVal.num (Powerbi.compute_score p))),
          ("Risk_Category",
            (predictProba dataset).map
              (fun p =>
                CellVal.str (Powerbi.Risk_Category (Powerbi.compute_score p))))] := by
    simp only [Powerbi.powerbi_predict]
    rw [Frame.setCol_cols_of_not_contains _ hRC2, hgetD, hcomp, h2, h1]
    simp
  refine ⟨hcols, fun n hn => ?_⟩
  unfold Frame.getCol
  rw [hcols, List.find?_append]
  have hsome : (dataset.cols.find? (fun c => c.1 == n)).isSome = true :=
    find_isSome_of_contains hn
  obtain ⟨c, hc⟩ := Option.isSome_iff_exists.mp hsome
  rw [hc]
  rfl

/-- C9 witness: the amended augmentation claim evaluated on a concrete
one-column feature table and a model that returns no probabilities. -/
theorem C9_predict_appends_three_columns_witness :
    ((⟨[("CustomerID", [CellVal.str "CUST_001"])]⟩ : Frame).colNames.contains
      "PD" = false) ∧
    ((⟨[("CustomerID", [CellVal.str "CUST_001"])]⟩ : Frame).colNames.contains
      "Behavior_Score" = false) ∧
    ((⟨[("CustomerID", [CellVal.str "CUST_001"])]⟩ : Frame).colNames.contains
      "Risk_Category" = false) ∧
    ((Powerbi.powerbi_predict (fun _ => [])
        ⟨[("CustomerID", [CellVal.str "CUST_001"])]⟩).cols =
      (⟨[("CustomerID", [CellVal.str "CUST_001"])]⟩ : Frame).cols ++
        [("PD", ([] : List ℝ).map CellVal.num),
          ("Behavior_Score",
            ([] : List ℝ).map (fun p => CellVal.num (Powerbi.compute_score p))),
          ("Risk_Category",
            ([] : List ℝ).map
              (fun p =>
                CellVal.str (Powerbi.Risk_Category (Powerbi.compute_score p))))] ∧
      (∀ n : String,
        (⟨[("CustomerID", [CellVal.str "CUST_001"])]⟩ : Frame).colNames.contains
          n = true →
        (Powerbi.powerbi_predict (fun _ => [])
            ⟨[("CustomerID", [CellVal.str "CUST_001"])]⟩).getCol n =
          (⟨[("CustomerID", [CellVal.str "CUST_001"])]⟩ : Frame).getCol n)) :=
  ⟨by decide, by decide, by decide,
    C9_predict_appends_three_columns (fun _ => [])
      ⟨[("CustomerID", [CellVal.str "CUST_001"])]⟩
      (by decide) (by decide) (by decide)⟩

/-- C9 counterexample: on an input table that already has a PD column, the
pandas assignment `dataset_out["PD"] = pd_probs` overwrites the original
column in place, so the output neither preserves the original column values
nor appends three new columns to the input's column list. -/
theorem C9_overwrites_existing_pd_column :
    ((⟨[("PD", [CellVal.num 0])]⟩ : Frame).colNames.contains "PD" = true) ∧
    (Powerbi.powerbi_predict (fun _ => []) ⟨[("PD", [CellVal.num 0])]⟩).getCol
      "PD" ≠ (⟨[("PD", [CellVal.num 0])]⟩ : Frame).getCol "PD" ∧
    (Powerbi.powerbi_predict (fun _ => []) ⟨[("PD", [CellVal.num 0])]⟩).colNames ≠
      (⟨[("PD", [CellVal.num 0])]⟩ : Frame).colNames ++
        ["PD", "Behavior_Score", "Risk_Category"] := by
  have hL : (Powerbi.powerbi_predict (fun _ => [])
      ⟨[("PD", [CellVal.num 0])]⟩).getCol "PD" = some [] := rfl
  have hR : (⟨[("PD", [CellVal.num 0])]⟩ : Frame).getCol "PD" =
      some [CellVal.num 0] := rfl
  have hN : (Powerbi.powerbi_predict (fun _ => [])
      ⟨[("PD", [CellVal.num 0])]⟩).colNames =
      ["PD", "Behavior_Score", "Risk_Category"] := rfl
  refine ⟨by decide, ?_, ?_⟩
  · rw [hL, hR]
    simp
  · rw [hN]
    decide
